import Mathlib

/-!
Shallow embedding of the authenticated-call lifecycle of the
saic-python-client-ng repository (files api/base.py and net/client/api.py),
for checking the specification claims about the Response Classifier, the
Session Manager, the Call Executor and the Event-ID Retry Loop.

Conventions of the embedding:
* Machine integers are modelled as Int / Nat.
* Exceptions are modelled as an explicit error type carried in Except.
* The tenacity retry decorator (stop_after_delay(30), wait_fixed(interval),
  reraise=True) is modelled as a fuelled recursion in which an attempt is
  instantaneous and elapsed time advances by the fixed wait, matching the
  semantics of tenacity: after a failed attempt the library consults the
  retry predicate, runs the after-callback, checks the stop condition on
  the elapsed time measured at the attempt outcome, and only then sleeps;
  with reraise=True the stop path re-raises the last attempt exception.
-/

/-- Error kinds of the client.  The module exceptions.py is not part of the
given sources; modelled from the spec error taxonomy (section 7):
SaicApiException (fatal application errors, also wrapping parse failures),
SaicApiRetryException (the internal retry signal carrying an event id), and
SaicLogoutException (the distinguished not-authenticated error).  The spec
requires the retry signal to pass unchanged through the re-raise clause of
deserialize, so the three named kinds form the SaicApiException family that
the first except clause re-raises verbatim.  A fourth kind stands for any
exception foreign to the client (for example a transport error), which the
second except clause of deserialize wraps into a fresh fatal error. -/
inductive SaicError where
  | api (message : String) (returnCode : Option Int)
  | retrySignal (message : String) (eventId : String) (returnCode : Option Int)
  | loggedOut (message : String) (returnCode : Option Int)
  | other (message : String)
deriving DecidableEq, Repr

/-- True exactly on the internal retry signal (SaicApiRetryException). -/
def SaicError.isRetrySignal : SaicError → Bool
  | .retrySignal _ _ _ => true
  | _ => false

/-- True exactly on the fatal application error kind (SaicApiException proper). -/
def SaicError.isApi : SaicError → Bool
  | .api _ _ => true
  | _ => false

/-- Session state owned by the client: bearer token and its expiration,
the attributes user_token and token_expiration of AbstractSaicApi. -/
structure Session where
  user_token : Option String
  token_expiration : Option Nat
deriving DecidableEq, Repr

/-- Modelled from the spec: the configuration surface of model.py (absent
from the given sources): credentials, username-is-email flag, phone country
code, base URI, relogin delay and sms delivery delay (the polling interval). -/
structure SaicApiConfiguration where
  username : String
  password : String
  username_is_email : Bool
  phone_country_code : String
  base_uri : String
  relogin_delay : Nat
  sms_delivery_delay : Nat
deriving DecidableEq, Repr

/-- The decoded JSON body of a server response as read by deserialize:
an optional integer code, an optional message, and an optional opaque
data payload (presence is what classification inspects). -/
structure JsonBody where
  code : Option Int
  message : Option String
  data : Option String
deriving DecidableEq, Repr

/-- A server response as seen by deserialize: the body (none when the body
does not parse as JSON), the optional event-id response header, and the
raw text used in diagnostic messages. -/
structure ApiResponse where
  json : Option JsonBody
  event_id_header : Option String
  text : String
deriving DecidableEq, Repr

/-- Session events recorded to express the temporal order of the code-401
handling of deserialize: the session clearing, the optional relogin-delay
sleep, and the re-login attempt. -/
inductive SessionEvent where
  | sessionCleared
  | sleptReloginDelay
  | reloginAttempted
deriving DecidableEq, Repr

/-- Outcome of the nested re-login performed inside the code-401 branch of
deserialize: either success (login stores the returned token and computes
the expiration now + expires_in) or failure raising an error, which then
traverses the except clauses of deserialize (SaicApiException-family errors
re-raised verbatim, foreign exceptions wrapped into a fresh fatal error). -/
inductive LoginOutcome where
  | success (token : String) (expires_in : Nat)
  | fails (e : SaicError)
deriving DecidableEq, Repr

/-- logout of AbstractSaicApi: clears the user token and the token
expiration unconditionally. -/
def logout (_s : Session) : Session :=
  { user_token := none, token_expiration := none }

/-- The except clauses of deserialize (api/base.py lines 165-168): an
exception of the SaicApiException family (the fatal, retry-signal and
logged-out kinds) is re-raised verbatim, while any other exception is
wrapped into a fresh fatal SaicApiException whose message embeds the
offending error and the raw response text, and which carries no return
code. -/
def deserialize_except_clause (resp_text : String) : SaicError → SaicError
  | .other m =>
      .api ("Failed to deserialize response: " ++ m ++ ". Original json was " ++ resp_text) none
  | se => se

/-- deserialize of AbstractSaicApi (api/base.py lines 122-168), embedded as
a pure function from the response, whether a typed result is expected
(data_class is not None), the outcome of the nested re-login, and the
current session, to the call result, the resulting session, and the list
of session events in the order the code performs them.  Branch order is
the order of the source: invalid JSON wraps into a fatal error; then
return_code := code or -1, error_message := message or a fixed default;
code 401 clears the session, optionally sleeps, re-logs-in and raises a
fatal error (a failing re-login raises inside the enclosing try, so its
error passes through the except clauses via deserialize_except_clause);
codes 2, 3, 7 raise a fatal error; an event-id header with no
data field raises the retry signal carrying the header value; code 4
raises the retry signal with event id 0; any other non-zero code raises a
fatal error; then the data field is decoded, its absence (with a typed
result expected) raising a fatal error. -/
def deserialize (cfg : SaicApiConfiguration) (now : Nat) (resp : ApiResponse)
    (expected : Bool) (login_outcome : LoginOutcome) (s : Session) :
    Except SaicError (Option String) × Session × List SessionEvent :=
  match resp.json with
  | none =>
      (.error (.api ("Failed to deserialize response: invalid JSON. Original json was " ++ resp.text) none), s, [])
  | some j =>
      let return_code : Int := j.code.getD (-1)
      let error_message : String := j.message.getD "Unknown error"
      if return_code = 401 then
        let evs := [SessionEvent.sessionCleared] ++
          (if cfg.relogin_delay ≠ 0 then [SessionEvent.sleptReloginDelay] else []) ++
          [SessionEvent.reloginAttempted]
        match login_outcome with
        | .success tok exp =>
            (.error (.api error_message (some 401)),
             { user_token := some tok, token_expiration := some (now + exp) }, evs)
        | .fails e =>
            (.error (deserialize_except_clause resp.text e),
             { user_token := none, token_expiration := none }, evs)
      else if return_code = 2 ∨ return_code = 3 ∨ return_code = 7 then
        (.error (.api error_message (some return_code)), s, [])
      else if resp.event_id_header.isSome ∧ j.data.isNone then
        (.error (.retrySignal error_message (resp.event_id_header.getD "") (some return_code)), s, [])
      else if return_code = 4 then
        (.error (.retrySignal error_message "0" (some return_code)), s, [])
      else if return_code ≠ 0 then
        (.error (.api error_message (some return_code)), s, [])
      else if !expected then
        (.ok none, s, [])
      else
        match j.data with
        | some d => (.ok (some d), s, [])
        | none =>
            (.error (.api ("Failed to deserialize response, missing data field: " ++ resp.text) none), s, [])

/-- saic_api_retry_policy of api/base.py: retry on the retry signal and on
the logged-out error, do not retry on the fatal application error nor on
any foreign exception. -/
def saic_api_retry_policy : SaicError → Bool
  | .retrySignal _ _ _ => true
  | .loggedOut _ _ => true
  | .api _ _ => false
  | .other _ => false

/-- saic_api_after_retry of api/base.py, reduced to its effect on the
event_id keyword argument (always present, the loop is entered with event
id 0): when the attempt failed with the retry signal the event id becomes
the value carried by the signal, otherwise it is kept. -/
def saic_api_after_retry (e : SaicError) (event_id : String) : String :=
  match e with
  | .retrySignal _ eid _ => eid
  | _ => event_id

/-- The tenacity-driven retry loop of execute_api_call_with_event_id,
as a fuelled recursion.  Arguments: the attempt function (attempt index and
event id to outcome), the fixed wait, the stop deadline, the fuel, the
attempt index, the current event id and the elapsed time measured at the
attempt outcome (attempts are instantaneous, time advances by the wait).
Returns the surfaced result and the trace of attempts as pairs of the event
id sent and the elapsed time at which the attempt ran.  A failed attempt is
retried when the retry policy accepts it and the elapsed time has not
reached the deadline; when the deadline is reached, reraise=True re-raises
the last attempt exception. -/
def retryRun (call : Nat → String → Except SaicError (Option String))
    (waitTime maxDelay : Nat) :
    Nat → Nat → String → Nat → Except SaicError (Option String) × List (String × Nat)
  | 0, _, _, _ => (.error (.other "fuel exhausted"), [])
  | fuel + 1, n, event_id, t =>
    match call n event_id with
    | .ok a => (.ok a, [(event_id, t)])
    | .error e =>
      if saic_api_retry_policy e then
        if maxDelay ≤ t then
          (.error e, [(event_id, t)])
        else
          let r := retryRun call waitTime maxDelay fuel (n + 1) (saic_api_after_retry e event_id) (t + waitTime)
          (r.1, (event_id, t) :: r.2)
      else
        (.error e, [(event_id, t)])

/-- execute_api_call_with_event_id of api/base.py: the retry loop with
stop_after_delay(30), the configured wait, and initial event id 0.  The
fuel is large enough for every run whose wait is positive. -/
def execute_api_call_with_event_id
    (call : Nat → String → Except SaicError (Option String)) (waitTime : Nat) :
    Except SaicError (Option String) × List (String × Nat) :=
  retryRun call waitTime 30 (30 / max waitTime 1 + 2) 0 "0" 0

/-- 32-bit rotate left used by SHA-1, on Nat values below 2 ^ 32. -/
def rotl32 (n x : Nat) : Nat := ((x <<< n) ||| (x >>> (32 - n))) % 4294967296

/-- SHA-1 message padding: append the byte 128, zero bytes up to 56 mod 64,
then the bit length as eight big-endian bytes. -/
def sha1_pad (msg : List Nat) : List Nat :=
  let bitLen := 8 * msg.length
  let z := (120 - (msg.length + 1) % 64) % 64
  msg ++ [128] ++ List.replicate z 0 ++
    (List.range 8).map (fun i => (bitLen >>> (8 * (7 - i))) % 256)

/-- Big-endian 32-bit word number i of a byte list. -/
def sha1_word_at (bytes : List Nat) (i : Nat) : Nat :=
  ((bytes.getD (4 * i) 0 * 256 + bytes.getD (4 * i + 1) 0) * 256 +
    bytes.getD (4 * i + 2) 0) * 256 + bytes.getD (4 * i + 3) 0

/-- The 80-word SHA-1 message schedule of a 64-byte chunk. -/
def sha1_schedule (chunk : List Nat) : List Nat :=
  (List.range 80).foldl
    (fun w t =>
      if t < 16 then w ++ [sha1_word_at chunk t]
      else w ++ [rotl32 1 (((w.getD (t - 3) 0) ^^^ (w.getD (t - 8) 0)) ^^^
        ((w.getD (t - 14) 0) ^^^ (w.getD (t - 16) 0)))])
    []

/-- The SHA-1 round function. -/
def sha1_f (t b c d : Nat) : Nat :=
  if t < 20 then (b &&& c) ||| ((4294967295 - b) &&& d)
  else if t < 40 then (b ^^^ c) ^^^ d
  else if t < 60 then ((b &&& c) ||| (b &&& d)) ||| (c &&& d)
  else (b ^^^ c) ^^^ d

/-- The SHA-1 round constants. -/
def sha1_k (t : Nat) : Nat :=
  if t < 20 then 1518500249 else if t < 40 then 1859775393
  else if t < 60 then 2400959708 else 3395469782

/-- The five 32-bit SHA-1 state words. -/
structure Sha1State where
  a : Nat
  b : Nat
  c : Nat
  d : Nat
  e : Nat
deriving DecidableEq, Repr

/-- One SHA-1 compression step over a 64-byte chunk. -/
def sha1_chunk_step (h : Sha1State) (chunk : List Nat) : Sha1State :=
  let w := sha1_schedule chunk
  let fin := (List.range 80).foldl
    (fun st t =>
      let temp := (rotl32 5 st.a + sha1_f t st.b st.c st.d + st.e + sha1_k t +
        w.getD t 0) % 4294967296
      ⟨temp, st.a, rotl32 30 st.b, st.c, st.d⟩)
    h
  ⟨(h.a + fin.a) % 4294967296, (h.b + fin.b) % 4294967296,
   (h.c + fin.c) % 4294967296, (h.d + fin.d) % 4294967296,
   (h.e + fin.e) % 4294967296⟩

/-- Lowercase hexadecimal digit of a value below 16. -/
def sha1_hex_char (n : Nat) : Char :=
  if n < 10 then Char.ofNat (48 + n) else Char.ofNat (87 + n)

/-- Eight lowercase hexadecimal digits of a 32-bit word. -/
def sha1_word_hex (w : Nat) : List Char :=
  (List.range 8).map (fun i => sha1_hex_char ((w >>> (4 * (7 - i))) % 16))

/-- Modelled from the spec: sha1_hex_digest of crypto_utils.py is absent
from the given sources; the spec requires the SHA-1 hex digest of the
password, so this is standard SHA-1 producing lowercase hexadecimal.
The input bytes are the code points of the string, which coincides with
its UTF-8 encoding on the ASCII credentials at issue. -/
def sha1_hex_digest (s : String) : String :=
  let msg := sha1_pad (s.toList.map Char.toNat)
  let h := (List.range (msg.length / 64)).foldl
    (fun h i => sha1_chunk_step h ((msg.drop (64 * i)).take 64))
    ⟨1732584193, 4023233417, 2562383102, 271733878, 3285377520⟩
  String.mk (sha1_word_hex h.a ++ sha1_word_hex h.b ++ sha1_word_hex h.c ++
    sha1_word_hex h.d ++ sha1_word_hex h.e)

/-- The fixed firebase device identifier of login (api/base.py line 57). -/
def firebase_device_id : String := "cqSHOMG1SmK4k-fzAeK6hr:APA91bGtGihOG5SEQ9hPx3Dtr9o9mQguNiKZrQzboa-1C_UBlRZYdFcMmdfLvh9Q_xA8A0dGFIjkMhZbdIXOYnKfHCeWafAfLXOrxBS3N18T4Slr-x9qpV6FHLMhE9s7I6s89k9lU7DD"

/-- The fields of the form-encoded login request body. -/
structure LoginFormBody where
  grant_type : String
  username : String
  password : String
  scope : String
  deviceId : String
  deviceType : String
  loginType : String
  countryCode : String
deriving DecidableEq, Repr

/-- The login request body built by login (api/base.py lines 58-67). -/
def login_form_body (cfg : SaicApiConfiguration) : LoginFormBody :=
  { grant_type := "password"
    username := cfg.username
    password := sha1_hex_digest cfg.password
    scope := "all"
    deviceId := firebase_device_id ++ "###europecar"
    deviceType := "1"
    loginType := if cfg.username_is_email then "2" else "1"
    countryCode := if cfg.username_is_email then "" else cfg.phone_country_code }

/-- encrypt_request of SaicApiClient (net/client/api.py): when no user token
is held, the distinguished not-authenticated logged-out error is raised
before the request is processed any further. -/
def encrypt_request (user_token : Option String) : Except SaicError Unit :=
  match user_token with
  | none => .error (.loggedOut "Client not authenticated, please call login first" (some 401))
  | some _ => .ok ()

/-- One attempt of a call through SaicApiClient: the request hook
encrypt_request runs before the request is sent; the Bool records whether
the request reached the server. -/
def client_attempt (user_token : Option String)
    (server : String → Except SaicError (Option String)) (event_id : String) :
    Except SaicError (Option String) × Bool :=
  match encrypt_request user_token with
  | .error e => (.error e, false)
  | .ok _ => (server event_id, true)

/-- A configuration fixture: email username, password pw, polling interval
(sms delivery delay) of five seconds. -/
def cfg0 : SaicApiConfiguration :=
  { username := "a@b.com", password := "pw", username_is_email := true,
    phone_country_code := "", base_uri := "https://gateway/", relogin_delay := 0,
    sms_delivery_delay := 5 }

/-- The empty session. -/
def session0 : Session := { user_token := none, token_expiration := none }

/-- A response fixture: code 0, an event-id header and no data field, the
shape that classifies as Retryable. -/
def respAlwaysEvent : ApiResponse :=
  { json := some { code := some 0, message := none, data := none },
    event_id_header := some "ev1", text := "" }

/-- A server that always answers with respAlwaysEvent: every attempt is
classified Retryable by deserialize.  The login outcome and session
arguments are irrelevant on this path. -/
def serverAlwaysRetry : Nat → String → Except SaicError (Option String) :=
  fun _ _ => (deserialize cfg0 0 respAlwaysEvent true (.fails (.api "x" none)) session0).1

/-- A configuration fixture: non-email username 5551234 with configured
phone country code 49. -/
def cfgPhone : SaicApiConfiguration :=
  { username := "5551234", password := "pw", username_is_email := false,
    phone_country_code := "49", base_uri := "https://gateway/", relogin_delay := 0,
    sms_delivery_delay := 5 }

/-- The distinguished not-authenticated error raised by encrypt_request. -/
def notAuthenticatedError : SaicError :=
  .loggedOut "Client not authenticated, please call login first" (some 401)

/-- A server answer that is never consulted on the unauthenticated path. -/
def serverNeverReached : String → Except SaicError (Option String) := fun _ => .ok none

/-- An attempt issued while the client holds no user token: every attempt
goes through client_attempt with an empty session. -/
def unauthenticatedCall : Nat → String → Except SaicError (Option String) :=
  fun _ eid => (client_attempt none serverNeverReached eid).1

deriving instance DecidableEq for Except

set_option maxRecDepth 10000 in
/-- Supporting check of the modelled hash: the SHA-1 hex digest of pw
matches the published value of the function. -/
theorem sha1_hex_digest_pw_vector :
    sha1_hex_digest "pw" = "1a91d62f7ca67399625a4368a6ab5d4a3baa6073" := by decide

/-- C8: logout is idempotent: from any session state it always yields the
cleared state, and a second call changes nothing. -/
theorem logout_idempotent_and_clears (s : Session) :
    logout s = { user_token := none, token_expiration := none } ∧
    logout (logout s) = logout s :=
  ⟨rfl, rfl⟩

/-- C7: with email username a@b.com and password pw the login body carries
loginType 2, an empty countryCode and the SHA-1 hex digest of pw as the
password; with non-email username 5551234 and configured country code 49
it carries loginType 1 and countryCode 49. -/
theorem login_body_scenarios :
    (login_form_body cfg0).loginType = "2" ∧
    (login_form_body cfg0).countryCode = "" ∧
    (login_form_body cfg0).password = sha1_hex_digest "pw" ∧
    (login_form_body cfgPhone).loginType = "1" ∧
    (login_form_body cfgPhone).countryCode = "49" :=
  ⟨rfl, rfl, rfl, rfl, rfl⟩

/-- C1 counterexample: with a 30 second deadline, a 5 second interval and a
server always classified Retryable, the loop makes 7 attempts, not 6, and
the surfaced error is the retry signal itself, not a distinct timeout
error. -/
theorem timeout_scenario_not_six_attempts :
    (execute_api_call_with_event_id serverAlwaysRetry 5).2.length = 7 ∧
    (execute_api_call_with_event_id serverAlwaysRetry 5).2.length ≠ 6 ∧
    (execute_api_call_with_event_id serverAlwaysRetry 5).1 =
      .error (.retrySignal "Unknown error" "ev1" (some 0)) := by decide

/-- C1 amended: with a 30 second deadline, a 5 second interval and every
attempt classified Retryable, the loop makes exactly 7 attempts, at
elapsed times 0, 5, 10, 15, 20, 25 and 30, and then fails by re-raising
the retry signal of the last attempt (tenacity reraise); no attempt starts
after the elapsed time has reached the deadline. -/
theorem timeout_scenario_seven_attempts :
    (execute_api_call_with_event_id serverAlwaysRetry 5).2 =
      [("0", 0), ("ev1", 5), ("ev1", 10), ("ev1", 15), ("ev1", 20),
       ("ev1", 25), ("ev1", 30)] ∧
    (execute_api_call_with_event_id serverAlwaysRetry 5).1 =
      .error (.retrySignal "Unknown error" "ev1" (some 0)) := by decide

/-- C2 counterexample: under deadline expiry with every attempt classified
Retryable, the error surfaced to the caller of the loop is the internal
retry signal itself, because tenacity reraise re-raises the exception of
the final attempt. -/
theorem retry_signal_reaches_caller_on_expiry :
    (execute_api_call_with_event_id serverAlwaysRetry 5).1 =
      .error (.retrySignal "Unknown error" "ev1" (some 0)) ∧
    SaicError.isRetrySignal (.retrySignal "Unknown error" "ev1" (some 0)) = true := by
  decide

/-- C10: a polling call started without authentication fails with the
distinguished not-authenticated error before the request is sent (the
server is never consulted), the retry policy classifies that error as
retryable, and with the 5 second interval the loop keeps retrying such
attempts for the whole 30 second budget (7 attempts) instead of failing
fast, finally surfacing that same error. -/
theorem unauthenticated_polling_retries_until_budget
    (server : String → Except SaicError (Option String)) (eid : String) :
    client_attempt none server eid = (.error notAuthenticatedError, false) ∧
    saic_api_retry_policy notAuthenticatedError = true ∧
    (execute_api_call_with_event_id unauthenticatedCall 5).2.length = 7 ∧
    (execute_api_call_with_event_id unauthenticatedCall 5).1 =
      .error notAuthenticatedError :=
  ⟨rfl, rfl, by decide, by decide⟩

/-- Closed instance of the previous statement at a concrete server and
event id. -/
theorem unauthenticated_polling_retries_until_budget_witness :
    client_attempt none serverNeverReached "0" = (.error notAuthenticatedError, false) ∧
    saic_api_retry_policy notAuthenticatedError = true ∧
    (execute_api_call_with_event_id unauthenticatedCall 5).2.length = 7 ∧
    (execute_api_call_with_event_id unauthenticatedCall 5).1 =
      .error notAuthenticatedError :=
  unauthenticated_polling_retries_until_budget serverNeverReached "0"

/-- C6: an envelope with code 2, 3 or 7 classifies as Fatal with the server
message passed through, and the session state is left unchanged (and no
session event occurs). -/
theorem code_two_three_seven_fatal_frame
    (cfg : SaicApiConfiguration) (now : Nat) (resp : ApiResponse) (j : JsonBody)
    (c : Int) (m : String) (lo : LoginOutcome) (s : Session) (expected : Bool)
    (hj : resp.json = some j) (hc : j.code = some c)
    (hmem : c = 2 ∨ c = 3 ∨ c = 7) (hm : j.message = some m) :
    (deserialize cfg now resp expected lo s).1 = .error (.api m (some c)) ∧
    (deserialize cfg now resp expected lo s).2.1 = s ∧
    (deserialize cfg now resp expected lo s).2.2 = [] := by
  have h401 : ¬ ((j.code.getD (-1)) = 401) := by
    rw [hc]; rcases hmem with h | h | h <;> subst h <;> decide
  have hmem2 : (j.code.getD (-1)) = 2 ∨ (j.code.getD (-1)) = 3 ∨ (j.code.getD (-1)) = 7 := by
    rw [hc]; simpa using hmem
  unfold deserialize
  rw [hj]
  simp only [h401, if_false, hmem2, if_true, if_neg h401, if_pos hmem2]
  rw [hc, hm]
  simp [Option.getD]

/-- C9: an envelope whose JSON body lacks a code field is treated as code
-1: classification yields the retry signal carrying the header value when
an event-id header is present and the body lacks data, and otherwise a
Fatal error with return code -1; the session is untouched either way. -/
theorem missing_code_treated_as_minus_one
    (cfg : SaicApiConfiguration) (now : Nat) (resp : ApiResponse) (j : JsonBody)
    (lo : LoginOutcome) (s : Session) (expected : Bool)
    (hj : resp.json = some j) (hc : j.code = none) :
    (deserialize cfg now resp expected lo s).1 =
      (if resp.event_id_header.isSome ∧ j.data.isNone then
        .error (.retrySignal (j.message.getD "Unknown error")
          (resp.event_id_header.getD "") (some (-1)))
      else
        .error (.api (j.message.getD "Unknown error") (some (-1)))) ∧
    (deserialize cfg now resp expected lo s).2.1 = s ∧
    (deserialize cfg now resp expected lo s).2.2 = [] := by
  simp only [deserialize, hj, hc]
  norm_num
  split <;> simp

/-- C3 counterexample: an envelope with code 0 and no data field, with a
typed result expected, classifies as the Retryable signal (not as the
Fatal missing-data error) when the response carries an event-id header,
because the event-id check of deserialize precedes the data decoding. -/
theorem code_zero_no_data_with_event_id_is_retryable :
    (deserialize cfg0 0
      { json := some { code := some 0, message := none, data := none },
        event_id_header := some "abc", text := "raw" }
      true (.fails (.api "x" none)) session0).1 =
      .error (.retrySignal "Unknown error" "abc" (some 0)) ∧
    SaicError.isApi (.retrySignal "Unknown error" "abc" (some 0)) = false := by decide

/-- C3 amended: an envelope with code 0 that lacks a data field, when a
typed result is expected and the response carries no event-id header,
classifies as Fatal with the missing-data-field error. -/
theorem code_zero_missing_data_without_event_id_fatal
    (cfg : SaicApiConfiguration) (now : Nat) (resp : ApiResponse) (j : JsonBody)
    (lo : LoginOutcome) (s : Session)
    (hj : resp.json = some j) (hc : j.code = some 0) (hd : j.data = none)
    (hev : resp.event_id_header = none) :
    (deserialize cfg now resp true lo s).1 =
      .error (.api ("Failed to deserialize response, missing data field: " ++ resp.text) none) ∧
    (deserialize cfg now resp true lo s).2.1 = s ∧
    (deserialize cfg now resp true lo s).2.2 = [] := by
  simp [deserialize, hj, hc, hd, hev]

/-- C4 counterexample: on a code-401 envelope whose triggered re-login
itself raises the retry signal (a login response carrying an event-id
header and no data), the error surfaced for the original call is that
retry signal, not a Fatal application error. -/
theorem reauth_with_retrying_login_not_fatal :
    (deserialize cfg0 0
      { json := some { code := some 401, message := some "m", data := none },
        event_id_header := none, text := "raw" }
      true (.fails (.retrySignal "r" "evX" (some 0)))
      { user_token := some "tok", token_expiration := some 3 }).1 =
      .error (.retrySignal "r" "evX" (some 0)) ∧
    SaicError.isApi (.retrySignal "r" "evX" (some 0)) = false := by decide

/-- C4 amended: on every code-401 envelope the session is cleared before
the re-login attempt is made, regardless of the re-login outcome; when the
re-login succeeds the original call is reported as Fatal with return code
401, and when the re-login fails the error surfacing in place of that
Fatal report is its error as filtered by the except clauses of
deserialize: a SaicApiException-family error (in particular the retry
signal) verbatim, a foreign exception (such as a transport error) wrapped
into a fresh Fatal application error. -/
theorem reauth_clears_session_before_relogin
    (cfg : SaicApiConfiguration) (now : Nat) (resp : ApiResponse) (j : JsonBody)
    (lo : LoginOutcome) (s : Session) (expected : Bool)
    (hj : resp.json = some j) (hc : j.code.getD (-1) = 401) :
    (deserialize cfg now resp expected lo s).2.2.head? = some .sessionCleared ∧
    SessionEvent.reloginAttempted ∈ (deserialize cfg now resp expected lo s).2.2.tail ∧
    (∀ tok exp, lo = .success tok exp →
      (deserialize cfg now resp expected lo s).1 =
        .error (.api (j.message.getD "Unknown error") (some 401))) ∧
    (∀ e, lo = .fails e →
      (deserialize cfg now resp expected lo s).1 =
        .error (deserialize_except_clause resp.text e)) := by
  cases lo with
  | success tok exp => refine ⟨?_, ?_, ?_, ?_⟩ <;> simp [deserialize, hj, hc]
  | fails e => refine ⟨?_, ?_, ?_, ?_⟩ <;> simp [deserialize, hj, hc]

/-- With at least one unit of fuel, the retry loop records the current
event id and elapsed time as the head of its attempt trace. -/
theorem retryRun_trace_head
    (call : Nat → String → Except SaicError (Option String))
    (w D fuel n : Nat) (eid : String) (t : Nat) :
    (retryRun call w D (fuel + 1) n eid t).2.head? = some (eid, t) := by
  cases hc : call n eid with
  | ok a => simp [retryRun, hc]
  | error e =>
    simp only [retryRun, hc]
    split
    · split <;> simp
    · simp

/-- Unfolding step of the retry loop: a failed attempt classified as the
retry signal, with the deadline not yet reached, recurses with the carried
event id and the elapsed time advanced by the wait, recording the attempt
in the trace. -/
theorem retryRun_succ_retry
    (call : Nat → String → Except SaicError (Option String))
    (w D fuel n : Nat) (eid : String) (t : Nat) (m ev : String) (rc : Option Int)
    (hc : call n eid = .error (.retrySignal m ev rc)) (hD : ¬ D ≤ t) :
    retryRun call w D (fuel + 1) n eid t =
      ((retryRun call w D fuel (n + 1) ev (t + w)).1,
       (eid, t) :: (retryRun call w D fuel (n + 1) ev (t + w)).2) := by
  rw [retryRun, hc]
  simp [saic_api_retry_policy, saic_api_after_retry, hD]

/-- C5 counterexample: an envelope carrying an event-id header and lacking
a data field does not classify as Retryable when its code is one of the
fatal application codes: with code 2 the classification is Fatal, because
the fatal-code check of deserialize precedes the event-id check. -/
theorem event_id_header_with_code_two_fatal :
    (deserialize cfg0 0
      { json := some { code := some 2, message := some "m", data := none },
        event_id_header := some "abc", text := "raw" }
      true (.fails (.api "x" none)) session0).1 = .error (.api "m" (some 2)) ∧
    SaicError.isRetrySignal (.api "m" (some 2)) = false := by decide

/-- C5 amended: an envelope carrying an event-id header and lacking a data
field, whose code is none of 401, 2, 3 and 7, classifies as the Retryable
signal carrying the header value; and whenever the first attempt of the
retry loop fails with a retry signal carrying an event id (and the
deadline is positive), the second attempt is sent with exactly that event
id. -/
theorem event_id_header_without_data_retries_with_header_value :
    (∀ (cfg : SaicApiConfiguration) (now : Nat) (resp : ApiResponse)
       (j : JsonBody) (ev : String) (lo : LoginOutcome) (s : Session)
       (expected : Bool),
      resp.json = some j → resp.event_id_header = some ev → j.data = none →
      ¬ (j.code.getD (-1) = 401 ∨ j.code.getD (-1) = 2 ∨
         j.code.getD (-1) = 3 ∨ j.code.getD (-1) = 7) →
      (deserialize cfg now resp expected lo s).1 =
        .error (.retrySignal (j.message.getD "Unknown error") ev
          (some (j.code.getD (-1))))) ∧
    (∀ (call : Nat → String → Except SaicError (Option String))
       (w D : Nat) (m eid : String) (rc : Option Int) (fuel : Nat),
      call 0 "0" = .error (.retrySignal m eid rc) → 0 < D →
      ((retryRun call w D (fuel + 2) 0 "0" 0).2.map Prod.fst).take 2 = ["0", eid]) := by
  constructor
  · intro cfg now resp j ev lo s expected hj hev hd hcode
    push_neg at hcode
    obtain ⟨h401, h2, h3, h7⟩ := hcode
    simp [deserialize, hj, hev, hd, h401, h2, h3, h7]
  · intro call w D m eid rc fuel hcall hD
    have hstop : ¬ (D ≤ 0) := by omega
    rw [retryRun_succ_retry call w D (fuel + 1) 0 "0" 0 m eid rc hcall hstop]
    have hh := retryRun_trace_head call w D fuel 1 eid (0 + w)
    cases htr : (retryRun call w D (fuel + 1) 1 eid (0 + w)).2 with
    | nil => rw [htr] at hh; simp at hh
    | cons p rest =>
      rw [htr] at hh
      simp at hh
      simp [htr, hh]

/-- C2 amended: the retry signal is absorbed by the retry loop as long as
the deadline has not expired: whenever the loop surfaces a retry-signal
error, the elapsed time of the final attempt (start time plus wait times
the preceding attempts) has reached the deadline, because with
reraise=True only the deadline-expiry path re-raises a retryable
exception. -/
theorem retry_signal_absorbed_until_deadline
    (call : Nat → String → Except SaicError (Option String)) (w D : Nat) :
    ∀ (fuel n : Nat) (eid : String) (t : Nat) (err : SaicError),
      (retryRun call w D fuel n eid t).1 = .error err →
      err.isRetrySignal = true →
      1 ≤ (retryRun call w D fuel n eid t).2.length ∧
      D ≤ t + w * ((retryRun call w D fuel n eid t).2.length - 1) := by
  intro fuel
  induction fuel with
  | zero =>
    intro n eid t err h1 h2
    simp only [retryRun, Except.error.injEq] at h1
    rw [← h1] at h2
    simp [SaicError.isRetrySignal] at h2
  | succ fuel ih =>
    intro n eid t err h1 h2
    cases hc : call n eid with
    | ok a =>
      simp only [retryRun, hc] at h1
      exact absurd h1 (by simp)
    | error e =>
      by_cases hp : saic_api_retry_policy e = true
      · by_cases hs : D ≤ t
        · simp only [retryRun, hc, hp, hs, if_true] at h1 ⊢
          simp
          omega
        · simp only [retryRun, hc, hp, hs, if_true, if_false] at h1 ⊢
          obtain ⟨hlen, hle⟩ := ih (n + 1) (saic_api_after_retry e eid) (t + w) err h1 h2
          refine ⟨by simp, ?_⟩
          simp only [List.length_cons, Nat.add_sub_cancel]
          have h3 : w * (retryRun call w D fuel (n + 1) (saic_api_after_retry e eid) (t + w)).2.length =
              w * ((retryRun call w D fuel (n + 1) (saic_api_after_retry e eid) (t + w)).2.length - 1) + w := by
            conv_lhs => rw [← Nat.succ_pred_eq_of_pos hlen]
            rw [Nat.mul_succ, Nat.pred_eq_sub_one]
          omega
      · simp only [retryRun, hc, hp, if_false] at h1 ⊢
        have he : e = err := by simpa using h1
        subst he
        cases e <;> simp_all [saic_api_retry_policy, SaicError.isRetrySignal]

/-- Closed instance of logout idempotence at the empty session. -/
theorem logout_idempotent_and_clears_witness :
    logout session0 = { user_token := none, token_expiration := none } ∧
    logout (logout session0) = logout session0 :=
  logout_idempotent_and_clears session0

/-- Closed instance of the code 2/3/7 Fatal classification with unchanged
session. -/
theorem code_two_three_seven_fatal_frame_witness :
    (deserialize cfg0 0
      { json := some { code := some 2, message := some "boom", data := none },
        event_id_header := none, text := "t" }
      true (.fails (.api "x" none)) session0).1 = .error (.api "boom" (some 2)) ∧
    (deserialize cfg0 0
      { json := some { code := some 2, message := some "boom", data := none },
        event_id_header := none, text := "t" }
      true (.fails (.api "x" none)) session0).2.1 = session0 ∧
    (deserialize cfg0 0
      { json := some { code := some 2, message := some "boom", data := none },
        event_id_header := none, text := "t" }
      true (.fails (.api "x" none)) session0).2.2 = [] :=
  code_two_three_seven_fatal_frame cfg0 0
    { json := some { code := some 2, message := some "boom", data := none },
      event_id_header := none, text := "t" }
    { code := some 2, message := some "boom", data := none }
    2 "boom" (.fails (.api "x" none)) session0 true rfl rfl (Or.inl rfl) rfl

/-- Closed instance of the missing-code classification at an envelope with
an event-id header and no data. -/
theorem missing_code_treated_as_minus_one_witness :
    (deserialize cfg0 0
      { json := some { code := none, message := some "hi", data := none },
        event_id_header := some "abc", text := "t" }
      true (.fails (.api "x" none)) session0).1 =
      (if (some "abc" : Option String).isSome ∧ (none : Option String).isNone then
        .error (.retrySignal ((some "hi" : Option String).getD "Unknown error")
          ((some "abc" : Option String).getD "") (some (-1)))
      else
        .error (.api ((some "hi" : Option String).getD "Unknown error") (some (-1)))) ∧
    (deserialize cfg0 0
      { json := some { code := none, message := some "hi", data := none },
        event_id_header := some "abc", text := "t" }
      true (.fails (.api "x" none)) session0).2.1 = session0 ∧
    (deserialize cfg0 0
      { json := some { code := none, message := some "hi", data := none },
        event_id_header := some "abc", text := "t" }
      true (.fails (.api "x" none)) session0).2.2 = [] :=
  missing_code_treated_as_minus_one cfg0 0
    { json := some { code := none, message := some "hi", data := none },
      event_id_header := some "abc", text := "t" }
    { code := none, message := some "hi", data := none }
    (.fails (.api "x" none)) session0 true rfl rfl

/-- Closed instance of the amended missing-data classification at an
envelope with code 0, no data and no event-id header. -/
theorem code_zero_missing_data_without_event_id_fatal_witness :
    (deserialize cfg0 0
      { json := some { code := some 0, message := none, data := none },
        event_id_header := none, text := "raw" }
      true (.fails (.api "x" none)) session0).1 =
      .error (.api ("Failed to deserialize response, missing data field: " ++ "raw") none) ∧
    (deserialize cfg0 0
      { json := some { code := some 0, message := none, data := none },
        event_id_header := none, text := "raw" }
      true (.fails (.api "x" none)) session0).2.1 = session0 ∧
    (deserialize cfg0 0
      { json := some { code := some 0, message := none, data := none },
        event_id_header := none, text := "raw" }
      true (.fails (.api "x" none)) session0).2.2 = [] :=
  code_zero_missing_data_without_event_id_fatal cfg0 0
    { json := some { code := some 0, message := none, data := none },
      event_id_header := none, text := "raw" }
    { code := some 0, message := none, data := none }
    (.fails (.api "x" none)) session0 rfl rfl rfl rfl

/-- Closed instance of the amended code-401 handling: a successful
re-login yields the Fatal 401 report after the session clearing, and a
re-login failing with a foreign transport error surfaces that error
wrapped into a fresh Fatal application error. -/
theorem reauth_clears_session_before_relogin_witness :
    (deserialize cfg0 7
      { json := some { code := some 401, message := some "m", data := none },
        event_id_header := none, text := "t" }
      true (.success "tok2" 100)
      { user_token := some "tok", token_expiration := some 3 }).2.2.head? =
        some .sessionCleared ∧
    SessionEvent.reloginAttempted ∈
      (deserialize cfg0 7
        { json := some { code := some 401, message := some "m", data := none },
          event_id_header := none, text := "t" }
        true (.success "tok2" 100)
        { user_token := some "tok", token_expiration := some 3 }).2.2.tail ∧
    (deserialize cfg0 7
      { json := some { code := some 401, message := some "m", data := none },
        event_id_header := none, text := "t" }
      true (.success "tok2" 100)
      { user_token := some "tok", token_expiration := some 3 }).1 =
      .error (.api ((some "m" : Option String).getD "Unknown error") (some 401)) ∧
    (deserialize cfg0 7
      { json := some { code := some 401, message := some "m", data := none },
        event_id_header := none, text := "t" }
      true (.fails (.other "boom"))
      { user_token := some "tok", token_expiration := some 3 }).1 =
      .error (.api "Failed to deserialize response: boom. Original json was t" none) := by
  have h := reauth_clears_session_before_relogin cfg0 7
    { json := some { code := some 401, message := some "m", data := none },
      event_id_header := none, text := "t" }
    { code := some 401, message := some "m", data := none }
    (.success "tok2" 100)
    { user_token := some "tok", token_expiration := some 3 } true rfl (by decide)
  have h2 := reauth_clears_session_before_relogin cfg0 7
    { json := some { code := some 401, message := some "m", data := none },
      event_id_header := none, text := "t" }
    { code := some 401, message := some "m", data := none }
    (.fails (.other "boom"))
    { user_token := some "tok", token_expiration := some 3 } true rfl (by decide)
  refine ⟨h.1, h.2.1, h.2.2.1 "tok2" 100 rfl, ?_⟩
  rw [h2.2.2.2 (.other "boom") rfl]
  rfl

/-- Closed instance of the amended event-id retry behaviour: classification
of a header-carrying envelope without data, and the event id of the second
loop attempt. -/
theorem event_id_retry_combined_witness :
    (deserialize cfg0 0
      { json := some { code := none, message := none, data := none },
        event_id_header := some "abc", text := "t" }
      true (.fails (.api "x" none)) session0).1 =
      .error (.retrySignal ((none : Option String).getD "Unknown error") "abc"
        (some ((none : Option Int).getD (-1)))) ∧
    ((retryRun serverAlwaysRetry 5 30 (6 + 2) 0 "0" 0).2.map Prod.fst).take 2 =
      ["0", "ev1"] :=
  ⟨event_id_header_without_data_retries_with_header_value.1 cfg0 0
    { json := some { code := none, message := none, data := none },
      event_id_header := some "abc", text := "t" }
    { code := none, message := none, data := none }
    "abc" (.fails (.api "x" none)) session0 true rfl rfl rfl (by decide),
   event_id_header_without_data_retries_with_header_value.2 serverAlwaysRetry
    5 30 "Unknown error" "ev1" (some 0) 6 (by decide) (by decide)⟩

/-- Closed instance of the deadline bound on a surfaced retry signal: in
the all-Retryable run with wait 5 and deadline 30 the bound says the
deadline is reached by the final attempt. -/
theorem retry_signal_absorbed_until_deadline_witness :
    1 ≤ (retryRun serverAlwaysRetry 5 30 8 0 "0" 0).2.length ∧
    30 ≤ 0 + 5 * ((retryRun serverAlwaysRetry 5 30 8 0 "0" 0).2.length - 1) :=
  retry_signal_absorbed_until_deadline serverAlwaysRetry 5 30 8 0 "0" 0
    (.retrySignal "Unknown error" "ev1" (some 0)) (by decide) (by decide)
